import Mathlib

/-!
Verification development for the TigerData-Workshops synthetic IoT data
generators.

The repository contains three Python generators:

  Industrial-IoT-Workshop/generate_iot_data.py      (the main generator)
  Industrial-IoT-Workshop/generate_sample_data.py   (a CSV variant)
  Industrial-IoT-Workshop2/generate_simple_data.py  (a simplified variant)

This file gives a shallow embedding of the parts of those programs that the
properties below are about: the sensor-reading pipeline with its status
classification, the production-metrics pipeline, the quality-control
generator, and the maintenance-event generator.

Modelling conventions:

  * Timestamps are natural numbers counting minutes; one day is 1440 minutes
    and one hour is 60 minutes.  The epoch is taken to fall on a Monday, so
    the weekday index of a timestamp t is t / 1440 % 7.
  * Numeric sensor values are rationals.
  * Randomness is modelled by oracle environments: every call site of the
    random module reads one value from a dedicated oracle field, indexed by
    the loop position of the call.  The stdlib primitives are embedded by
    their documented semantics: random.random() yields a value in [0, 1)
    (the fractional part of the oracle value), random.uniform a b is
    a + (b - a) * random(), random.randint a b is a + randbelow (b - a + 1),
    and random.gauss 0 sigma is sigma times an unconstrained oracle value
    (the support of a centred Gaussian is the whole line, and it degenerates
    to 0 when sigma = 0).
  * The diurnal factor sin(2 * pi * hour / 24) is irrational-valued; it is
    abstracted as an oracle field of the environment (a function of the
    hour).  No property below depends on its values.
  * Python round(x, d) rounds half to even on the decimal scale; it is
    embedded as rhe below (up to the binary floating-point representation,
    which is out of scope).
-/

/-- Status values attached to generated sensor readings. -/
inductive Status where
  | normal
  | warning
  | critical
deriving DecidableEq

/-- Round half to even, to an integer: the rounding used by Python round. -/
def rhe (x : ℚ) : ℤ :=
  if Int.fract x < 1/2 then ⌊x⌋
  else if 1/2 < Int.fract x then ⌊x⌋ + 1
  else if ⌊x⌋ % 2 = 0 then ⌊x⌋ else ⌊x⌋ + 1

/-- Python round(x, d): round half to even at d decimal digits. -/
def roundTo (d : ℕ) (x : ℚ) : ℚ := (rhe (x * 10 ^ d) : ℚ) / 10 ^ d

/-- random.random(): a draw in [0, 1), obtained here as the fractional part
of an unconstrained oracle value. -/
def pyRandom (u : ℚ) : ℚ := Int.fract u

/-- random.uniform a b = a + (b - a) * random(). -/
def pyUniform (a b u : ℚ) : ℚ := a + (b - a) * pyRandom u

/-- random.gauss 0 sigma: a centred Gaussian draw; its support is the whole
line scaled by sigma, modelled as sigma times the oracle value. -/
def pyGauss (sigma u : ℚ) : ℚ := sigma * u

/-- random.randint a b = a + randbelow (b - a + 1), always within [a, b]. -/
def pyRandint (a b u : ℕ) : ℕ := a + u % (b - a + 1)

/-- random.choice on a list of strings, the draw reduced modulo the length. -/
def pyChoice (xs : List String) (u : ℕ) (dflt : String) : String :=
  xs.getD (u % xs.length) dflt

/-- random.choice on a list of string lists (the parts_options table). -/
def pyChoiceL (xs : List (List String)) (u : ℕ) : List String :=
  xs.getD (u % xs.length) []

/-- Hour of day of a timestamp in minutes. -/
def hourOf (t : ℕ) : ℕ := t / 60 % 24

/-- Weekday index of a timestamp in minutes (epoch taken to be a Monday). -/
def weekdayOf (t : ℕ) : ℕ := t / 1440 % 7

/-- Operating factor of the main generator: 0.3 on weekends, 0.6 at night
(before 06:00 or after 22:00), 1.0 otherwise. -/
def operatingFactor (t : ℕ) : ℚ :=
  if 5 ≤ weekdayOf t then 3/10
  else if hourOf t < 6 ∨ 22 < hourOf t then 3/5
  else 1

/-- Static profile of one piece of equipment, one entry of EQUIPMENT_CONFIG:
identifier, production line, temperature range, vibration range, and the
optional pressure range. -/
structure EquipCfg where
  id : String
  line : String
  tempLo : ℚ
  tempHi : ℚ
  vibLo : ℚ
  vibHi : ℚ
  pressure : Option (ℚ × ℚ)
deriving DecidableEq

/-- The EQUIPMENT_CONFIG table of generate_iot_data.py, in dictionary
order. -/
def EQUIPMENT_CONFIG : List EquipCfg :=
  [⟨"MOTOR_001", "Line 1", 45, 75, 2, 12, none⟩,
   ⟨"MOTOR_002", "Line 1", 45, 75, 2, 12, none⟩,
   ⟨"PUMP_001", "Line 1", 40, 65, 5, 18, some (180, 240)⟩,
   ⟨"PUMP_002", "Line 2", 40, 65, 5, 18, some (180, 240)⟩,
   ⟨"CONV_001", "Line 1", 25, 55, 1, 8, none⟩,
   ⟨"CONV_002", "Line 2", 25, 55, 1, 8, none⟩,
   ⟨"ROBOT_001", "Line 1", 35, 60, 1, 6, none⟩,
   ⟨"ROBOT_002", "Line 2", 35, 60, 1, 6, none⟩,
   ⟨"COMP_001", "Utility", 60, 85, 8, 22, some (6, 15/2)⟩,
   ⟨"HVAC_001", "Factory Floor", 18, 24, 1, 4, none⟩]

/-- The LINES table. -/
def LINES : List String := ["Line 1", "Line 2"]

/-- The PRODUCT_IDS table. -/
def PRODUCT_IDS : List String := ["PROD_A001", "PROD_B002", "PROD_C003", "PROD_D004"]

/-- The TEST_TYPES table. -/
def TEST_TYPES : List String := ["dimensional", "visual", "functional", "electrical"]

/-- The INSPECTOR_IDS table. -/
def INSPECTOR_IDS : List String := ["INSP_001", "INSP_002", "INSP_003", "INSP_004"]

/-- The TECHNICIAN_IDS table. -/
def TECHNICIAN_IDS : List String :=
  ["TECH_001", "TECH_002", "TECH_003", "TECH_004", "TECH_005"]

/-- The fault_types table of generate_maintenance_events. -/
def FAULT_TYPES : List String :=
  ["bearing failure", "sensor malfunction", "electrical issue",
   "hydraulic leak", "belt replacement", "calibration drift"]

/-- The parts_options table of generate_maintenance_events. -/
def PARTS_OPTIONS : List (List String) :=
  [["bearings", "seals"],
   ["sensors", "wiring"],
   ["electrical_components"],
   ["hydraulic_seals", "hoses"],
   ["belts", "pulleys"],
   ["calibration_tools"]]

/-- The status classification of generate_sensor_data, embedded exactly as
the source writes it: the status starts as normal, is overwritten by warning
when the value exceeds the upper bound, and is finally overwritten by
critical when the value exceeds the upper bound times the critical
multiplier (11/10 for temperature, 6/5 for vibration, 21/20 for pressure). -/
def statusOver (value ub mult : ℚ) : Status :=
  let s := Status.normal
  let s := if ub < value then Status.warning else s
  if ub * mult < value then Status.critical else s

/-- One row of the sensor_data output: (time, equipment_id, sensor_type,
value, unit, status). -/
structure Reading where
  time : ℕ
  equipmentId : String
  sensorType : String
  value : ℚ
  unit : String
  status : Status
deriving DecidableEq

/-- Randomness oracle for generate_sensor_data.  The drift fields model the
once-per-run equipment_states initialisation (indexed by the equipment
position in the catalog); the noise fields model the per-reading Gaussian
and uniform draws (indexed by tick index and equipment position); sinTable
abstracts the irrational diurnal factor sin(2 * pi * hour / 24). -/
structure SensorEnv where
  sinTable : ℕ → ℚ
  tempDriftU : ℕ → ℚ
  vibDriftU : ℕ → ℚ
  tempNoise : ℕ → ℕ → ℚ
  vibNoise : ℕ → ℕ → ℚ
  pressNoise : ℕ → ℕ → ℚ
  humidU : ℕ → ℕ → ℚ

/-- The temp_drift entry of equipment_states: random.uniform (-0.1) 0.1. -/
def tempDrift (env : SensorEnv) (i : ℕ) : ℚ := pyUniform (-1/10) (1/10) (env.tempDriftU i)

/-- The vib_drift entry of equipment_states: random.uniform (-0.05) 0.05. -/
def vibDrift (env : SensorEnv) (i : ℕ) : ℚ := pyUniform (-1/20) (1/20) (env.vibDriftU i)

/-- The body of the equipment loop of generate_sensor_data: the readings
emitted for one piece of equipment cfg (at catalog position i) at tick
number k and timestamp t of a run that started at s.  Temperature and
vibration are always emitted, pressure only when the profile defines a
pressure range, humidity only for HVAC_001. -/
def equipReadings (env : SensorEnv) (s k i t : ℕ) (cfg : EquipCfg) : List Reading :=
  let daysElapsed : ℕ := (t - s) / 1440
  let tempBase := (cfg.tempLo + cfg.tempHi) / 2
  let tempVariation := (cfg.tempHi - cfg.tempLo) * (3/10)
  let dailyCycle := 3 * env.sinTable (hourOf t)
  let tempValue := tempBase + dailyCycle + pyGauss tempVariation (env.tempNoise k i)
      + tempDrift env i * daysElapsed
  let tempStatus := statusOver tempValue cfg.tempHi (11/10)
  let vibBase := (cfg.vibLo + cfg.vibHi) / 2
  let vibVariation := (cfg.vibHi - cfg.vibLo) * (2/5)
  let vibRaw := vibBase * operatingFactor t + pyGauss vibVariation (env.vibNoise k i)
      + vibDrift env i * daysElapsed
  let vibValue := max 0 vibRaw
  let vibStatus := statusOver vibValue cfg.vibHi (6/5)
  [⟨t, cfg.id, "temperature", roundTo 1 tempValue, "celsius", tempStatus⟩,
   ⟨t, cfg.id, "vibration", roundTo 2 vibValue, "hz", vibStatus⟩]
  ++ (match cfg.pressure with
      | some pr =>
          let pressureBase := (pr.1 + pr.2) / 2
          let pressureVariation := (pr.2 - pr.1) * (1/5)
          let pressureValue := pressureBase * operatingFactor t
              + pyGauss pressureVariation (env.pressNoise k i)
          [⟨t, cfg.id, "pressure", roundTo 1 pressureValue, "bar",
            statusOver pressureValue pr.2 (21/20)⟩]
      | none => [])
  ++ (if cfg.id = "HVAC_001" then
        let humidityValue := pyUniform 45 65 (env.humidU k i)
        let humidityStatus :=
          if 70 < humidityValue ∨ humidityValue < 40 then Status.warning
          else Status.normal
        [⟨t, cfg.id, "humidity", roundTo 1 humidityValue, "percent", humidityStatus⟩]
      else [])

/-- One tick of generate_sensor_data: the equipment loop over the catalog. -/
def sensorTick (catalog : List EquipCfg) (env : SensorEnv) (s k t : ℕ) : List Reading :=
  catalog.enum.flatMap (fun p => equipReadings env s k p.1 t p.2)

/-- The while loop of generate_sensor_data: while current_time is at most
end_time, emit one tick and advance by interval minutes.  A nonpositive
interval would never terminate in the source, so the guard also requires
0 < interval (every property below uses a positive interval).  The loop is
embedded structurally on an explicit iteration budget (first numeric
argument); generate_sensor_data passes a budget that dominates the trip
count. -/
def sensorLoop (catalog : List EquipCfg) (env : SensorEnv)
    (s interval e : ℕ) : ℕ → ℕ → ℕ → List Reading
  | 0, _, _ => []
  | fuel + 1, t, k =>
    if t ≤ e ∧ 0 < interval then
      sensorTick catalog env s k t ++
        sensorLoop catalog env s interval e fuel (t + interval) (k + 1)
    else []

/-- generate_sensor_data of generate_iot_data.py, with the equipment catalog
as an explicit parameter (the source reads the global EQUIPMENT_CONFIG).
The iteration budget e + 1 - s dominates the trip count of the while loop,
since every iteration advances the time cursor by at least one minute, so
the budget is never exhausted while the loop guard still holds. -/
def generate_sensor_data (catalog : List EquipCfg) (env : SensorEnv)
    (s e interval : ℕ) : List Reading :=
  sensorLoop catalog env s interval e (e + 1 - s) s 0

/-- One row of the production_metrics output. -/
structure ProdRecord where
  time : ℕ
  lineId : String
  equipmentId : String
  cycleTime : ℚ
  throughput : ℚ
  efficiencyScore : ℚ
  energyConsumption : ℚ
  downtimeDuration : ℚ
  defectRate : ℚ
deriving DecidableEq

/-- Randomness oracle for generate_production_metrics: the line-level base
draws are indexed by (tick, line position), the per-equipment draws by
(tick, line position, equipment position). -/
structure ProdEnv where
  baseEffU : ℕ → ℕ → ℚ
  baseThruU : ℕ → ℕ → ℚ
  cycleU : ℕ → ℕ → ℕ → ℚ
  thruJitterU : ℕ → ℕ → ℕ → ℚ
  effJitterU : ℕ → ℕ → ℕ → ℚ
  energyU : ℕ → ℕ → ℕ → ℚ
  dtGateU : ℕ → ℕ → ℕ → ℚ
  dtExpU : ℕ → ℕ → ℕ → ℚ
  defectU : ℕ → ℕ → ℕ → ℚ

/-- Modelled from the spec: the source line
downtime = random.exponential(downtime_prob * 15) calls an attribute that
the stdlib random module does not define; the spec states that downtime is
sampled from an exponential distribution, whose support is the non-negative
reals, so the draw is embedded as the scale times a non-negative
magnitude. -/
def pyExponential (scale u : ℚ) : ℚ := scale * |u|

/-- The shift-dependent base efficiency and base throughput of
generate_production_metrics: weekend, night shift, or day shift. -/
def prodShift (env : ProdEnv) (k li t : ℕ) : ℚ × ℚ :=
  if 5 ≤ weekdayOf t then
    (pyUniform 30 50 (env.baseEffU k li), pyUniform 10 30 (env.baseThruU k li))
  else if hourOf t < 6 ∨ 22 < hourOf t then
    (pyUniform 60 80 (env.baseEffU k li), pyUniform 40 70 (env.baseThruU k li))
  else
    (pyUniform 80 95 (env.baseEffU k li), pyUniform 70 120 (env.baseThruU k li))

/-- The body of the equipment loop of generate_production_metrics: one
production record for equipment eqId on line lineId at timestamp t, given
the line-level base efficiency and base throughput. -/
def prodRecord (env : ProdEnv) (k li ei t : ℕ) (lineId eqId : String)
    (baseEff baseThru : ℚ) : ProdRecord :=
  let cycleTime := pyUniform 35 55 (env.cycleU k li ei) * (100 / max baseEff 50)
  let throughput := baseThru * pyUniform (4/5) (6/5) (env.thruJitterU k li ei)
  let efficiency := max 0 (min 100 (baseEff * pyUniform (9/10) (11/10) (env.effJitterU k li ei)))
  let energyBase : ℚ := if lineId = "Line 1" then 8 else 15/2
  let energy := energyBase + throughput / 100 * 5 + pyUniform (-1) 1 (env.energyU k li ei)
  let downtimeProb := (100 - efficiency) / 100 * (3/10)
  let downtime :=
    if pyRandom (env.dtGateU k li ei) < downtimeProb
    then pyExponential (downtimeProb * 15) (env.dtExpU k li ei) else 0
  let defectRate := max 0 ((100 - efficiency) / 10 + pyUniform (-1) 1 (env.defectU k li ei))
  ⟨t, lineId, eqId, roundTo 1 cycleTime, roundTo 1 throughput, roundTo 1 efficiency,
   roundTo 2 energy, roundTo 1 downtime, roundTo 2 defectRate⟩

/-- One tick of generate_production_metrics: for each line, draw the shift
bases and emit one record per equipment of that line. -/
def prodTick (catalog : List EquipCfg) (env : ProdEnv) (k t : ℕ) : List ProdRecord :=
  LINES.enum.flatMap (fun lp =>
    let bases := prodShift env k lp.1 t
    ((catalog.filter (fun cfg => cfg.line = lp.2)).enum).flatMap (fun ep =>
      [prodRecord env k lp.1 ep.1 t lp.2 ep.2.id bases.1 bases.2]))

/-- The while loop of generate_production_metrics (same shape and budget
convention as the sensor loop). -/
def prodLoop (catalog : List EquipCfg) (env : ProdEnv)
    (interval e : ℕ) : ℕ → ℕ → ℕ → List ProdRecord
  | 0, _, _ => []
  | fuel + 1, t, k =>
    if t ≤ e ∧ 0 < interval then
      prodTick catalog env k t ++ prodLoop catalog env interval e fuel (t + interval) (k + 1)
    else []

/-- generate_production_metrics of generate_iot_data.py (iteration budget as
for generate_sensor_data). -/
def generate_production_metrics (catalog : List EquipCfg) (env : ProdEnv)
    (s e interval : ℕ) : List ProdRecord :=
  prodLoop catalog env interval e (e + 1 - s) s 0

/-- One row of the quality_control output.  The batch_id is kept as the
numeric counter value (the source formats it as BATCH_ followed by the
six-digit zero-padded counter). -/
structure QCRecord where
  time : ℕ
  batchId : ℕ
  lineId : String
  productId : String
  testType : String
  testResult : String
  measurement : Option ℚ
  toleranceMin : Option ℚ
  toleranceMax : Option ℚ
  inspectorId : String
deriving DecidableEq

/-- Randomness oracle for generate_quality_control_data: the interval draw
is indexed by the iteration, the per-line draws by (iteration, line
position). -/
structure QCEnv where
  gapU : ℕ → ℕ
  doTestU : ℕ → ℕ → ℚ
  productU : ℕ → ℕ → ℕ
  testTypeU : ℕ → ℕ → ℕ
  inspectorU : ℕ → ℕ → ℕ
  passU : ℕ → ℕ → ℚ
  sideU : ℕ → ℕ → ℚ
  measU : ℕ → ℕ → ℚ

/-- The record built for one line test of generate_quality_control_data:
the test type, result, and the tolerance-aware measurement sampling
(dimensional band [10, 10.5], electrical band [45, 55], no measurement for
visual and functional tests). -/
def qcTest (env : QCEnv) (it li t : ℕ) (lineId : String) (batch : ℕ) : QCRecord :=
  let productId := pyChoice PRODUCT_IDS (env.productU it li) "PROD_A001"
  let testType := pyChoice TEST_TYPES (env.testTypeU it li) "dimensional"
  let inspectorId := pyChoice INSPECTOR_IDS (env.inspectorU it li) "INSP_001"
  let result := if pyRandom (env.passU it li) < 19/20 then "pass" else "fail"
  if testType = "dimensional" then
    let m :=
      if result = "pass" then pyUniform (10 + 1/20) (21/2 - 1/20) (env.measU it li)
      else if pyRandom (env.sideU it li) < 1/2 then
        pyUniform (10 - 1/5) 10 (env.measU it li)
      else pyUniform (21/2) (21/2 + 1/5) (env.measU it li)
    ⟨t, batch, lineId, productId, testType, result, some m, some 10, some (21/2), inspectorId⟩
  else if testType = "electrical" then
    let m :=
      if result = "pass" then pyUniform (45 + 1) (55 - 1) (env.measU it li)
      else if pyRandom (env.sideU it li) < 1/2 then
        pyUniform (45 - 5) 45 (env.measU it li)
      else pyUniform 55 (55 + 5) (env.measU it li)
    ⟨t, batch, lineId, productId, testType, result, some m, some 45, some 55, inspectorId⟩
  else
    ⟨t, batch, lineId, productId, testType, result, none, none, none, inspectorId⟩

/-- The line loop of one quality-control iteration: each line runs a test
with probability 0.7, consuming and incrementing the batch counter. -/
def qcLines (env : QCEnv) (it t : ℕ) : List String → ℕ → ℕ → List QCRecord × ℕ
  | [], _, counter => ([], counter)
  | l :: rest, li, counter =>
    if pyRandom (env.doTestU it li) < 7/10 then
      let r := qcTest env it li t l counter
      let tail := qcLines env it t rest (li + 1) (counter + 1)
      (r :: tail.1, tail.2)
    else qcLines env it t rest (li + 1) counter

/-- The while loop of generate_quality_control_data: draw the next test time
(30 to 180 minutes ahead), stop when it passes the window end, otherwise run
the line loop and jump to the next test time. -/
def qcLoop (env : QCEnv) (e : ℕ) : ℕ → ℕ → ℕ → ℕ → List QCRecord
  | 0, _, _, _ => []
  | fuel + 1, cur, counter, it =>
    if cur ≤ e then
      let nextT := cur + pyRandint 30 180 (env.gapU it)
      if e < nextT then []
      else
        let step := qcLines env it nextT LINES 0 counter
        step.1 ++ qcLoop env e fuel nextT step.2 (it + 1)
    else []

/-- generate_quality_control_data of generate_iot_data.py: the batch counter
starts at 1000 (iteration budget as for generate_sensor_data; every
iteration advances the cursor by at least 30 minutes). -/
def generate_quality_control_data (env : QCEnv) (s e : ℕ) : List QCRecord :=
  qcLoop env e (e + 1 - s) s 1000 0

/-- One row of the maintenance_events output. -/
structure MaintEvent where
  time : ℕ
  equipmentId : String
  eventType : String
  maintenanceType : String
  duration : ℚ
  cost : ℚ
  technicianId : String
  description : String
  parts : Option (List String)
deriving DecidableEq

/-- Randomness oracle for generate_maintenance_events: the preventive draws
are indexed by (equipment position, iteration), the fault draws by
(equipment position, iteration, day index). -/
structure MaintEnv where
  gapU : ℕ → ℕ → ℕ
  prevDurU : ℕ → ℕ → ℚ
  prevCostU : ℕ → ℕ → ℚ
  prevTechU : ℕ → ℕ → ℕ
  prevPartsU : ℕ → ℕ → ℚ
  faultGateU : ℕ → ℕ → ℕ → ℚ
  faultHourU : ℕ → ℕ → ℕ → ℕ
  corrDurU : ℕ → ℕ → ℕ → ℚ
  corrCostU : ℕ → ℕ → ℕ → ℚ
  corrTechU : ℕ → ℕ → ℕ → ℕ
  faultTypeU : ℕ → ℕ → ℕ → ℕ
  corrPartsGateU : ℕ → ℕ → ℕ → ℚ
  corrPartsU : ℕ → ℕ → ℕ → ℕ

/-- The unscheduled-maintenance scan of one iteration of
generate_maintenance_events: for each of the 30 days starting at the day
index of the cursor, a 2 percent Bernoulli trial; on a hit the fault is
placed at a random hour between 8 and 18 of that day and emitted when it
falls inside the window. -/
def faultEvents (env : MaintEnv) (ei it : ℕ) (eqId : String)
    (s e daysPassed : ℕ) : List MaintEvent :=
  (List.range 30).flatMap (fun j =>
    let day := daysPassed + j
    if pyRandom (env.faultGateU ei it day) < 1/50 then
      let faultTime := s + day * 1440 + pyRandint 8 18 (env.faultHourU ei it day) * 60
      if faultTime ≤ e then
        let faultDesc := pyChoice FAULT_TYPES (env.faultTypeU ei it day) "bearing failure"
        [⟨faultTime, eqId, "unscheduled", "corrective",
          roundTo 1 (pyUniform 1 8 (env.corrDurU ei it day)),
          roundTo 2 (pyUniform 200 5000 (env.corrCostU ei it day)),
          pyChoice TECHNICIAN_IDS (env.corrTechU ei it day) "TECH_001",
          "Unscheduled repair: " ++ faultDesc,
          if pyRandom (env.corrPartsGateU ei it day) < 4/5
          then some (pyChoiceL PARTS_OPTIONS (env.corrPartsU ei it day)) else none⟩]
      else []
    else [])

/-- The per-equipment while loop of generate_maintenance_events: each
iteration draws the next preventive time 28 to 35 days ahead, emits the
preventive event when it is inside the window, runs the 30-day fault scan
from the current cursor, and jumps the cursor to the preventive time. -/
def maintLoop (env : MaintEnv) (ei : ℕ) (eqId : String) (s e : ℕ) :
    ℕ → ℕ → ℕ → List MaintEvent
  | 0, _, _ => []
  | fuel + 1, cur, it =>
    if cur ≤ e then
      let maintTime := cur + pyRandint 28 35 (env.gapU ei it) * 1440
      let prev : List MaintEvent :=
        if maintTime ≤ e then
          [⟨maintTime, eqId, "scheduled", "preventive",
            roundTo 1 (pyUniform 2 6 (env.prevDurU ei it)),
            roundTo 2 (pyUniform 500 2000 (env.prevCostU ei it)),
            pyChoice TECHNICIAN_IDS (env.prevTechU ei it) "TECH_001",
            "Scheduled preventive maintenance for " ++ eqId,
            if pyRandom (env.prevPartsU ei it) < 7/10
            then some ["filters", "lubricants"] else none⟩]
        else []
      prev ++ faultEvents env ei it eqId s e ((cur - s) / 1440)
        ++ maintLoop env ei eqId s e fuel maintTime (it + 1)
    else []

/-- The maintenance events generated for one piece of equipment: the
per-equipment while loop started at the window start (iteration budget as
for generate_sensor_data; every iteration advances the cursor by at least
28 days). -/
def maintForEquipment (env : MaintEnv) (ei : ℕ) (eqId : String) (s e : ℕ) :
    List MaintEvent :=
  maintLoop env ei eqId s e (e + 1 - s) s 0

/-- generate_maintenance_events of generate_iot_data.py: the per-equipment
loop over the catalog. -/
def generate_maintenance_events (catalog : List EquipCfg) (env : MaintEnv)
    (s e : ℕ) : List MaintEvent :=
  catalog.enum.flatMap (fun p => maintForEquipment env p.1 p.2.id s e)

/-- The trial days of the per-equipment loop of generate_maintenance_events:
the same recursion as maintFrom, recording for each iteration the 30 day
indices subjected to the per-day Bernoulli fault trial. -/
def maintDaysLoop (env : MaintEnv) (ei s e : ℕ) : ℕ → ℕ → ℕ → List ℕ
  | 0, _, _ => []
  | fuel + 1, cur, it =>
    if cur ≤ e then
      (List.range 30).map (fun j => (cur - s) / 1440 + j)
        ++ maintDaysLoop env ei s e fuel
            (cur + pyRandint 28 35 (env.gapU ei it) * 1440) (it + 1)
    else []

/-- The trial days of the run for one piece of equipment. -/
def maintTrialDays (env : MaintEnv) (ei s e : ℕ) : List ℕ :=
  maintDaysLoop env ei s e (e + 1 - s) s 0

/-- The EQUIPMENT table of generate_simple_data.py
(Industrial-IoT-Workshop2). -/
structure SimpleCfg where
  id : String
  tempLo : ℚ
  tempHi : ℚ
  vibLo : ℚ
  vibHi : ℚ
deriving DecidableEq

/-- The EQUIPMENT list of generate_simple_data.py. -/
def EQUIPMENT : List SimpleCfg :=
  [⟨"MOTOR_001", 45, 75, 2, 12⟩,
   ⟨"MOTOR_002", 45, 75, 2, 12⟩,
   ⟨"PUMP_001", 40, 70, 5, 18⟩,
   ⟨"PUMP_002", 40, 70, 5, 18⟩,
   ⟨"CONV_001", 25, 60, 1, 8⟩,
   ⟨"ROBOT_001", 35, 65, 1, 6⟩]

/-- One row of the simplified generator: (time, equipment_id, temperature,
vibration, status). -/
structure SimpleRow where
  time : ℕ
  equipmentId : String
  temperature : ℚ
  vibration : ℚ
  status : String
deriving DecidableEq

/-- Randomness oracle for generate_simple_data.py. -/
structure SimpleEnv where
  sinTable : ℕ → ℚ
  tempDriftU : ℕ → ℚ
  tempNoise : ℕ → ℕ → ℚ
  vibNoise : ℕ → ℕ → ℚ
  vibFluctU : ℕ → ℕ → ℚ
  spikeGateU : ℕ → ℕ → ℚ
  spikeU : ℕ → ℕ → ℚ

/-- determine_status of generate_simple_data.py: critical when temperature
or vibration exceeds its maximum, warning when either exceeds 90 percent of
its maximum, normal otherwise. -/
def determine_status (tempValue tempMax vibValue vibMax : ℚ) : String :=
  if tempMax < tempValue ∨ vibMax < vibValue then "critical"
  else if tempMax * (9/10) < tempValue ∨ vibMax * (9/10) < vibValue then "warning"
  else "normal"

/-- Operating factor of the simplified variant: 0.4 on weekends, 0.7 at
night, 1.0 on the day shift. -/
def operatingFactorSimple (t : ℕ) : ℚ :=
  if 5 ≤ weekdayOf t then 2/5
  else if hourOf t < 6 ∨ 22 < hourOf t then 7/10
  else 1

/-- The body of the equipment loop of generate_simple_data.py, including the
0.5 percent temperature spike path, which re-runs determine_status on the
spiked temperature. -/
def simpleRow (env : SimpleEnv) (s k i t : ℕ) (cfg : SimpleCfg) : SimpleRow :=
  let op := operatingFactorSimple t
  let dailyCycle := 4 * env.sinTable (hourOf t)
  let tempVariation := (cfg.tempHi - cfg.tempLo) * (1/5)
  let daysElapsed : ℕ := (t - s) / 1440
  let temperature := (cfg.tempLo + cfg.tempHi) / 2 + dailyCycle
      + pyGauss tempVariation (env.tempNoise k i)
      + pyUniform (-1/10) (1/10) (env.tempDriftU i) * daysElapsed
      + (op - 7/10) * 5
  let vibVariation := (cfg.vibHi - cfg.vibLo) * (3/10)
  let vibration := max (1/10) ((cfg.vibLo + cfg.vibHi) / 2 * op
      + pyGauss vibVariation (env.vibNoise k i)
      + pyUniform (-1) 1 (env.vibFluctU k i))
  let status := determine_status temperature cfg.tempHi vibration cfg.vibHi
  let spiked := pyRandom (env.spikeGateU k i) < 1/200
  let temperature2 := if spiked then temperature + pyUniform 5 15 (env.spikeU k i) else temperature
  let status2 := if spiked then determine_status temperature2 cfg.tempHi vibration cfg.vibHi
      else status
  ⟨t, cfg.id, roundTo 1 temperature2, roundTo 2 vibration, status2⟩

/-- One tick of generate_simple_data.py. -/
def simpleTick (catalog : List SimpleCfg) (env : SimpleEnv) (s k t : ℕ) : List SimpleRow :=
  catalog.enum.flatMap (fun p => [simpleRow env s k p.1 t p.2])

/-- The while loop of generate_simple_data.py: fixed 2-minute interval. -/
def simpleLoop (catalog : List SimpleCfg) (env : SimpleEnv) (s e : ℕ) :
    ℕ → ℕ → ℕ → List SimpleRow
  | 0, _, _ => []
  | fuel + 1, t, k =>
    if t ≤ e then
      simpleTick catalog env s k t ++ simpleLoop catalog env s e fuel (t + 2) (k + 1)
    else []

/-- generate_sensor_data of generate_simple_data.py (iteration budget as for
the main generator). -/
def generate_simple_sensor_data (catalog : List SimpleCfg) (env : SimpleEnv)
    (s e : ℕ) : List SimpleRow :=
  simpleLoop catalog env s e (e + 1 - s) s 0

/-- All-zero sensor oracle, used for concrete runs. -/
def envZero : SensorEnv :=
  ⟨fun _ => 0, fun _ => 0, fun _ => 0, fun _ _ => 0, fun _ _ => 0,
   fun _ _ => 0, fun _ _ => 0⟩

/-- Sensor oracle whose pressure noise is a large negative draw (a possible
outcome of the unbounded Gaussian). -/
def envPressNeg : SensorEnv :=
  ⟨fun _ => 0, fun _ => 0, fun _ => 0, fun _ _ => 0, fun _ _ => 0,
   fun _ _ => -1000, fun _ _ => 0⟩

/-- The MOTOR_001 profile of EQUIPMENT_CONFIG. -/
def motorCfg : EquipCfg := ⟨"MOTOR_001", "Line 1", 45, 75, 2, 12, none⟩

/-- The PUMP_001 profile of EQUIPMENT_CONFIG. -/
def pumpCfg : EquipCfg := ⟨"PUMP_001", "Line 1", 40, 65, 5, 18, some (180, 240)⟩

/-- The HVAC_001 profile of EQUIPMENT_CONFIG. -/
def hvacCfg : EquipCfg := ⟨"HVAC_001", "Factory Floor", 18, 24, 1, 4, none⟩

/-- The pressure reading emitted by the main generator for PUMP_001 at the
oracle envPressNeg (one tick at timestamp 0). -/
def pressCexReading : Reading := ⟨0, "PUMP_001", "pressure", -11874, "bar", Status.normal⟩

/-- Quality-control oracle forcing, on line 1 of every iteration, a
dimensional test that fails on the high side with random() equal to zero. -/
def qcEnvCex : QCEnv :=
  { gapU := fun _ => 0
    doTestU := fun _ li => if li = 0 then 0 else 7/10
    productU := fun _ _ => 0
    testTypeU := fun _ _ => 0
    inspectorU := fun _ _ => 0
    passU := fun _ _ => 19/20
    sideU := fun _ _ => 1/2
    measU := fun _ _ => 0 }

/-- Quality-control oracle forcing, on line 1 of every iteration, a passing
dimensional test. -/
def qcEnvPass : QCEnv :=
  { gapU := fun _ => 0
    doTestU := fun _ li => if li = 0 then 0 else 7/10
    productU := fun _ _ => 0
    testTypeU := fun _ _ => 0
    inspectorU := fun _ _ => 0
    passU := fun _ _ => 0
    sideU := fun _ _ => 0
    measU := fun _ _ => 0 }

/-- The failing dimensional record emitted by qcEnvCex at batch 1000. -/
def qcCexRecord : QCRecord :=
  ⟨30, 1000, "Line 1", "PROD_A001", "dimensional", "fail",
   some (21/2), some 10, some (21/2), "INSP_001"⟩

/-- The passing dimensional record emitted by qcEnvPass at batch 1000. -/
def qcPassRecord : QCRecord :=
  ⟨30, 1000, "Line 1", "PROD_A001", "dimensional", "pass",
   some (201/20), some 10, some (21/2), "INSP_001"⟩

/-- Maintenance oracle whose preventive gaps are all 28 days and whose
per-day fault trial hits exactly on run day 28. -/
def maintEnvCex : MaintEnv :=
  { gapU := fun _ _ => 0
    prevDurU := fun _ _ => 0
    prevCostU := fun _ _ => 0
    prevTechU := fun _ _ => 0
    prevPartsU := fun _ _ => 0
    faultGateU := fun _ _ day => if day = 28 then 0 else 1/2
    faultHourU := fun _ _ _ => 0
    corrDurU := fun _ _ _ => 0
    corrCostU := fun _ _ _ => 0
    corrTechU := fun _ _ _ => 0
    faultTypeU := fun _ _ _ => 0
    corrPartsGateU := fun _ _ _ => 0
    corrPartsU := fun _ _ _ => 0 }

/-- The corrective event fired by maintEnvCex on run day 28 (hour 8). -/
def corrCexEvent : MaintEvent :=
  ⟨40800, "MOTOR_001", "unscheduled", "corrective", 1, 200, "TECH_001",
   "Unscheduled repair: bearing failure", some ["bearings", "seals"]⟩

/-- All-zero production oracle. -/
def prodEnvZero : ProdEnv :=
  ⟨fun _ _ => 0, fun _ _ => 0, fun _ _ _ => 0, fun _ _ _ => 0, fun _ _ _ => 0,
   fun _ _ _ => 0, fun _ _ _ => 0, fun _ _ _ => 0, fun _ _ _ => 0⟩

/-- Simplified-variant oracle whose spike gate never fires. -/
def simpleEnvW : SimpleEnv :=
  ⟨fun _ => 0, fun _ => 0, fun _ _ => 0, fun _ _ => 0, fun _ _ => 0,
   fun _ _ => 1/2, fun _ _ => 0⟩

/-- The MOTOR_001 profile of the simplified variant. -/
def simpleMotorCfg : SimpleCfg := ⟨"MOTOR_001", 45, 75, 2, 12⟩

/-- The per-record body of generate_production_metrics_csv of
generate_sample_data.py.  It matches the main generator except in the
downtime branch, which draws random.uniform 0 15 and scales it by the
downtime probability. -/
def sampleProdRecord (env : ProdEnv) (k li ei t : ℕ) (lineId eqId : String)
    (baseEff baseThru : ℚ) : ProdRecord :=
  let cycleTime := pyUniform 35 55 (env.cycleU k li ei) * (100 / max baseEff 50)
  let throughput := baseThru * pyUniform (4/5) (6/5) (env.thruJitterU k li ei)
  let efficiency := max 0 (min 100 (baseEff * pyUniform (9/10) (11/10) (env.effJitterU k li ei)))
  let energyBase : ℚ := if lineId = "Line 1" then 8 else 15/2
  let energy := energyBase + throughput / 100 * 5 + pyUniform (-1) 1 (env.energyU k li ei)
  let downtimeProb := (100 - efficiency) / 100 * (3/10)
  let downtime :=
    if pyRandom (env.dtGateU k li ei) < downtimeProb
    then pyUniform 0 15 (env.dtExpU k li ei) * downtimeProb else 0
  let defectRate := max 0 ((100 - efficiency) / 10 + pyUniform (-1) 1 (env.defectU k li ei))
  ⟨t, lineId, eqId, roundTo 1 cycleTime, roundTo 1 throughput, roundTo 1 efficiency,
   roundTo 2 energy, roundTo 1 downtime, roundTo 2 defectRate⟩

attribute [local semireducible] Rat.add Rat.mul Rat.inv Rat.sub Rat.ofScientific

set_option maxRecDepth 400000

theorem le_rhe {m : ℤ} {x : ℚ} (h : (m : ℚ) ≤ x) : m ≤ rhe x := by
  have hf : m ≤ ⌊x⌋ := Int.le_floor.2 h
  unfold rhe
  split
  · exact hf
  · split
    · omega
    · split <;> omega

theorem rhe_le {m : ℤ} {x : ℚ} (h : x ≤ (m : ℚ)) : rhe x ≤ m := by
  have hfl : ⌊x⌋ ≤ m := by
    have h2 := Int.floor_le_floor h
    rwa [Int.floor_intCast] at h2
  by_cases hfr : Int.fract x < 1/2
  · unfold rhe
    rw [if_pos hfr]
    exact hfl
  · have hfr2 : (1:ℚ)/2 ≤ Int.fract x := le_of_not_lt hfr
    have hfe : Int.fract x = x - ⌊x⌋ := rfl
    have hfloor : (⌊x⌋ : ℚ) ≤ x := Int.floor_le x
    have hlt : (⌊x⌋ : ℚ) < (m : ℚ) := by
      rw [hfe] at hfr2
      linarith
    have hlt2 : ⌊x⌋ < m := by exact_mod_cast hlt
    unfold rhe
    rw [if_neg hfr]
    split
    · omega
    · split <;> omega

theorem le_roundTo {d : ℕ} {m : ℤ} {x : ℚ} (h : (m : ℚ) ≤ x * 10 ^ d) :
    (m : ℚ) / 10 ^ d ≤ roundTo d x := by
  have h2 : m ≤ rhe (x * 10 ^ d) := le_rhe h
  unfold roundTo
  have h3 : (m : ℚ) ≤ (rhe (x * 10 ^ d) : ℚ) := by exact_mod_cast h2
  have h4 : (0:ℚ) < 10 ^ d := by positivity
  exact div_le_div_of_nonneg_right h3 h4.le

theorem roundTo_le {d : ℕ} {m : ℤ} {x : ℚ} (h : x * 10 ^ d ≤ (m : ℚ)) :
    roundTo d x ≤ (m : ℚ) / 10 ^ d := by
  have h2 : rhe (x * 10 ^ d) ≤ m := rhe_le h
  unfold roundTo
  have h3 : (rhe (x * 10 ^ d) : ℚ) ≤ (m : ℚ) := by exact_mod_cast h2
  have h4 : (0:ℚ) < 10 ^ d := by positivity
  exact div_le_div_of_nonneg_right h3 h4.le

theorem roundTo_nonneg (d : ℕ) {x : ℚ} (h : 0 ≤ x) : 0 ≤ roundTo d x := by
  have h1 : ((0:ℤ) : ℚ) ≤ x * 10 ^ d := by positivity
  have h2 := le_roundTo (d := d) h1
  simpa using h2

theorem pyRandom_nonneg (u : ℚ) : 0 ≤ pyRandom u := Int.fract_nonneg u

theorem pyRandom_lt_one (u : ℚ) : pyRandom u < 1 := Int.fract_lt_one u

theorem pyUniform_le {a b : ℚ} (h : a ≤ b) (u : ℚ) : a ≤ pyUniform a b u := by
  have h0 := pyRandom_nonneg u
  unfold pyUniform
  nlinarith

theorem pyUniform_lt {a b : ℚ} (h : a < b) (u : ℚ) : pyUniform a b u < b := by
  have h0 := pyRandom_nonneg u
  have h1 := pyRandom_lt_one u
  unfold pyUniform
  nlinarith

theorem le_pyRandint (a b u : ℕ) : a ≤ pyRandint a b u := Nat.le_add_right a _

theorem pyRandint_le {a b : ℕ} (h : a ≤ b) (u : ℕ) : pyRandint a b u ≤ b := by
  unfold pyRandint
  have h2 : u % (b - a + 1) < b - a + 1 := Nat.mod_lt u (by omega)
  omega

/-- C1: for every equipment profile and timestamp, the main generator
classifies a temperature reading as critical exactly when the generated
value exceeds the temperature upper bound times 1.1, a vibration reading
exactly when the value exceeds the vibration upper bound times 1.2, and a
pressure reading exactly when the value exceeds the pressure upper bound
times 1.05; it classifies the reading as warning exactly when the value
exceeds the upper bound but not the critical threshold, and as normal
otherwise.  Stated over statusOver, the classification generate_sensor_data
applies to each generated value with the corresponding upper bound and
multiplier. -/
theorem C1_status_classification (value ub : ℚ) :
    (statusOver value ub (11/10) = Status.critical ↔ ub * (11/10) < value) ∧
    (statusOver value ub (11/10) = Status.warning ↔
      ub < value ∧ ¬ ub * (11/10) < value) ∧
    (statusOver value ub (11/10) = Status.normal ↔
      ¬ ub * (11/10) < value ∧ ¬ (ub < value ∧ ¬ ub * (11/10) < value)) ∧
    (statusOver value ub (6/5) = Status.critical ↔ ub * (6/5) < value) ∧
    (statusOver value ub (6/5) = Status.warning ↔
      ub < value ∧ ¬ ub * (6/5) < value) ∧
    (statusOver value ub (6/5) = Status.normal ↔
      ¬ ub * (6/5) < value ∧ ¬ (ub < value ∧ ¬ ub * (6/5) < value)) ∧
    (statusOver value ub (21/20) = Status.critical ↔ ub * (21/20) < value) ∧
    (statusOver value ub (21/20) = Status.warning ↔
      ub < value ∧ ¬ ub * (21/20) < value) ∧
    (statusOver value ub (21/20) = Status.normal ↔
      ¬ ub * (21/20) < value ∧ ¬ (ub < value ∧ ¬ ub * (21/20) < value)) := by
  refine ⟨?_, ?_, ?_, ?_, ?_, ?_, ?_, ?_, ?_⟩ <;>
    (unfold statusOver; split <;> split <;> simp_all)

theorem sensorLoop_mem {catalog : List EquipCfg} {env : SensorEnv}
    {s interval e : ℕ} :
    ∀ fuel t k r, r ∈ sensorLoop catalog env s interval e fuel t k →
      ∃ t2 k2, t2 ≤ e ∧ r ∈ sensorTick catalog env s k2 t2 := by
  intro fuel
  induction fuel with
  | zero =>
    intro t k r hr
    simp [sensorLoop] at hr
  | succ fuel ih =>
    intro t k r hr
    rw [sensorLoop] at hr
    by_cases hc : t ≤ e ∧ 0 < interval
    · rw [if_pos hc] at hr
      rcases List.mem_append.1 hr with h1 | h2
      · exact ⟨t, k, hc.1, h1⟩
      · exact ih (t + interval) (k + 1) r h2
    · rw [if_neg hc] at hr
      simp at hr

theorem mem_equipReadings {env : SensorEnv} {s k i t : ℕ} {cfg : EquipCfg}
    {r : Reading} (hr : r ∈ equipReadings env s k i t cfg) :
    r.time = t ∧
    (r.sensorType = "temperature" ∨
     (r.sensorType = "vibration" ∧ 0 ≤ r.value) ∨
     r.sensorType = "pressure" ∨
     (r.sensorType = "humidity" ∧ r.status = Status.normal)) := by
  unfold equipReadings at hr
  have hvib : (0:ℚ) ≤ roundTo 2 (max 0 ((cfg.vibLo + cfg.vibHi) / 2 * operatingFactor t +
      pyGauss ((cfg.vibHi - cfg.vibLo) * (2/5)) (env.vibNoise k i) +
      vibDrift env i * (((t - s) / 1440 : ℕ) : ℚ))) :=
    roundTo_nonneg 2 (le_max_left 0 _)
  have hhum : ∀ u : ℚ, ¬ (70 < pyUniform 45 65 u ∨ pyUniform 45 65 u < 40) := by
    intro u
    have h1 : (45:ℚ) ≤ pyUniform 45 65 u := pyUniform_le (by norm_num) u
    have h2 : pyUniform 45 65 u < 65 := pyUniform_lt (by norm_num) u
    push_neg
    constructor <;> linarith
  rcases hp : cfg.pressure with - | pr <;> rw [hp] at hr <;>
    by_cases hh : cfg.id = "HVAC_001" <;>
      simp only [hh, if_pos, if_neg, List.mem_append, List.mem_cons,
        List.mem_singleton, List.not_mem_nil, or_false, if_true, if_false,
        reduceIte] at hr
  all_goals try simp only [or_assoc] at hr
  · rcases hr with h | h | h <;> subst h <;> simp_all
  · rcases hr with h | h <;> subst h <;> simp_all
  · rcases hr with h | h | h | h <;> subst h <;> simp_all
  · rcases hr with h | h | h <;> subst h <;> simp_all

theorem simpleLoop_mem {catalog : List SimpleCfg} {env : SimpleEnv} {s e : ℕ} :
    ∀ fuel t k row, row ∈ simpleLoop catalog env s e fuel t k →
      ∃ t2 k2 i cfg, row = simpleRow env s k2 i t2 cfg := by
  intro fuel
  induction fuel with
  | zero =>
    intro t k row hr
    simp [simpleLoop] at hr
  | succ fuel ih =>
    intro t k row hr
    rw [simpleLoop] at hr
    by_cases hc : t ≤ e
    · rw [if_pos hc] at hr
      rcases List.mem_append.1 hr with h1 | h2
      · unfold simpleTick at h1
        obtain ⟨p, -, h3⟩ := List.mem_flatMap.1 h1
        rw [List.mem_singleton] at h3
        exact ⟨t, k, p.1, p.2, h3⟩
      · exact ih (t + 2) (k + 1) row h2
    · rw [if_neg hc] at hr
      simp at hr

theorem simpleRow_vibration (env : SimpleEnv) (s k i t : ℕ) (cfg : SimpleCfg) :
    1/10 ≤ (simpleRow env s k i t cfg).vibration := by
  unfold simpleRow
  have h1 : (10:ℚ) ≤ (max (1/10) ((cfg.vibLo + cfg.vibHi) / 2 * operatingFactorSimple t
      + pyGauss ((cfg.vibHi - cfg.vibLo) * (3/10)) (env.vibNoise k i)
      + pyUniform (-1) 1 (env.vibFluctU k i))) * 10 ^ 2 := by
    have h2 : (1:ℚ)/10 ≤ max (1/10) ((cfg.vibLo + cfg.vibHi) / 2 * operatingFactorSimple t
        + pyGauss ((cfg.vibHi - cfg.vibLo) * (3/10)) (env.vibNoise k i)
        + pyUniform (-1) 1 (env.vibFluctU k i)) := le_max_left _ _
    nlinarith
  have h3 := le_roundTo (d := 2) (m := 10) (by exact_mod_cast h1)
  norm_num at h3
  convert h3 using 2

/-- C2 (amended): every vibration value emitted by the sensor generators is
floored: the main generator floors vibration at 0 (max 0 before rounding)
and the simplified variant floors it at 0.1, so vibration values are never
below those minima.  Pressure, by contrast, is not floored in the main
generator (see the counterexample), so the non-negativity part of the claim
survives only for vibration. -/
theorem C2_amended :
    (∀ catalog env s e interval r, r ∈ generate_sensor_data catalog env s e interval →
        r.sensorType = "vibration" → 0 ≤ r.value) ∧
    (∀ catalog env s e row, row ∈ generate_simple_sensor_data catalog env s e →
        1/10 ≤ row.vibration) := by
  constructor
  · intro catalog env s e interval r hr hty
    obtain ⟨t2, k2, -, hr2⟩ := sensorLoop_mem _ _ _ _ hr
    unfold sensorTick at hr2
    obtain ⟨p, -, hr3⟩ := List.mem_flatMap.1 hr2
    rcases (mem_equipReadings hr3).2 with h | ⟨-, h⟩ | h | ⟨h, -⟩
    · rw [hty] at h; exact absurd h (by decide)
    · exact h
    · rw [hty] at h; exact absurd h (by decide)
    · rw [hty] at h; exact absurd h (by decide)
  · intro catalog env s e row hr
    obtain ⟨t2, k2, i, cfg, h⟩ := simpleLoop_mem _ _ _ _ hr
    rw [h]
    exact simpleRow_vibration env s k2 i t2 cfg

/-- C2 counterexample: the claim also asserts that pressure values are never
negative, but the main generator does not floor pressure: at an oracle whose
Gaussian pressure draw is -1000 (a possible outcome, since the Gaussian
support is unbounded), the PUMP_001 pressure reading of the first tick has
value -11874, which is negative. -/
theorem C2_counterexample :
    pressCexReading ∈ generate_sensor_data [pumpCfg] envPressNeg 0 0 1 ∧
      pressCexReading.sensorType = "pressure" ∧ pressCexReading.value < 0 := by
  refine ⟨by decide, by decide, by decide⟩

/-- Witness for C2 (amended): a concrete vibration reading of the main
generator with value 21/5 at least 0, and a concrete row of the simplified
variant with vibration 39/10 at least 1/10. -/
theorem C2_witness :
    ((Reading.mk 0 "MOTOR_001" "vibration" (21/5) "hz" Status.normal ∈
        generate_sensor_data [motorCfg] envZero 0 0 1 ∧
      (Reading.mk 0 "MOTOR_001" "vibration" (21/5) "hz" Status.normal).sensorType =
        "vibration") ∧
      0 ≤ (Reading.mk 0 "MOTOR_001" "vibration" (21/5) "hz" Status.normal).value) ∧
    ((SimpleRow.mk 0 "MOTOR_001" 60 (39/10) "normal" ∈
        generate_simple_sensor_data [simpleMotorCfg] simpleEnvW 0 0) ∧
      1/10 ≤ (SimpleRow.mk 0 "MOTOR_001" 60 (39/10) "normal").vibration) := by
  refine ⟨⟨⟨by decide, by decide⟩, ?_⟩, ⟨by decide, ?_⟩⟩
  · exact C2_amended.1 [motorCfg] envZero 0 0 1 _ (by decide) (by decide)
  · exact C2_amended.2 [simpleMotorCfg] simpleEnvW 0 0 _ (by decide)

/-- C10: every humidity reading generated by generate_sensor_data has
status normal: the humidity value is drawn uniformly from [45, 65), which
lies strictly inside the two-sided warning band (below 40 or above 70), so
the warning branch is unreachable. -/
theorem C10_humidity_normal (catalog : List EquipCfg) (env : SensorEnv)
    (s e interval : ℕ) (r : Reading)
    (hr : r ∈ generate_sensor_data catalog env s e interval)
    (hty : r.sensorType = "humidity") : r.status = Status.normal := by
  obtain ⟨t2, k2, -, hr2⟩ := sensorLoop_mem _ _ _ _ hr
  unfold sensorTick at hr2
  obtain ⟨p, -, hr3⟩ := List.mem_flatMap.1 hr2
  rcases (mem_equipReadings hr3).2 with h | ⟨h, -⟩ | h | ⟨-, h⟩
  · rw [hty] at h; exact absurd h (by decide)
  · rw [hty] at h; exact absurd h (by decide)
  · rw [hty] at h; exact absurd h (by decide)
  · exact h

/-- Witness for C10: the concrete humidity reading of HVAC_001 at the
all-zero oracle has status normal. -/
theorem C10_witness :
    (Reading.mk 0 "HVAC_001" "humidity" 45 "percent" Status.normal ∈
        generate_sensor_data [hvacCfg] envZero 0 0 1 ∧
      (Reading.mk 0 "HVAC_001" "humidity" 45 "percent" Status.normal).sensorType =
        "humidity") ∧
    (Reading.mk 0 "HVAC_001" "humidity" 45 "percent" Status.normal).status =
      Status.normal :=
  ⟨⟨by decide, by decide⟩,
    C10_humidity_normal [hvacCfg] envZero 0 0 1 _ (by decide) (by decide)⟩

/-- C5 (amended): the generators perform no window validation at all.  For a
window whose end is strictly before its start none of the four loops ever
runs its body, so no records are produced, but no error is reported either;
and when end equals start the claim fails outright, because the sensor
generator still emits a full tick (see the counterexample). -/
theorem C5_amended (catalog : List EquipCfg) (env : SensorEnv) (penv : ProdEnv)
    (qenv : QCEnv) (menv : MaintEnv) (s e interval : ℕ) (h : e < s) :
    generate_sensor_data catalog env s e interval = [] ∧
    generate_production_metrics catalog penv s e interval = [] ∧
    generate_quality_control_data qenv s e = [] ∧
    generate_maintenance_events catalog menv s e = [] := by
  have hz : e + 1 - s = 0 := by omega
  refine ⟨?_, ?_, ?_, ?_⟩
  · rw [generate_sensor_data, hz, sensorLoop]
  · rw [generate_production_metrics, hz, prodLoop]
  · rw [generate_quality_control_data, hz, qcLoop]
  · rw [generate_maintenance_events]
    have hnil : ∀ p : ℕ × EquipCfg, maintForEquipment menv p.1 p.2.id s e = [] := by
      intro p
      rw [maintForEquipment, hz, maintLoop]
    simp [hnil]

/-- Witness for C5 (amended): a concrete window with end 0 before start 1
yields empty output from all four generators. -/
theorem C5_witness :
    (0:ℕ) < 1 ∧
      (generate_sensor_data [motorCfg] envZero 1 0 1 = [] ∧
       generate_production_metrics [motorCfg] prodEnvZero 1 0 1 = [] ∧
       generate_quality_control_data qcEnvPass 1 0 = [] ∧
       generate_maintenance_events [motorCfg] maintEnvCex 1 0 = []) :=
  ⟨Nat.zero_lt_one,
    C5_amended [motorCfg] envZero prodEnvZero qcEnvPass maintEnvCex 1 0 1 Nat.zero_lt_one⟩

/-- C5 counterexample: the claim requires every window with end at or
before start to be rejected with no records produced, but for end equal to
start (0 = 0 here, so end is at or before start) the sensor generator runs
one full tick and emits records. -/
theorem C5_counterexample :
    (0:ℕ) ≤ 0 ∧ generate_sensor_data [motorCfg] envZero 0 0 1 ≠ [] := by
  refine ⟨le_rfl, by decide⟩

theorem sensorLoop_eq_flat {catalog : List EquipCfg} {env : SensorEnv}
    {s interval e : ℕ} (hp : 0 < interval) :
    ∀ fuel t k, e + 1 - t ≤ fuel → t ≤ e →
      sensorLoop catalog env s interval e fuel t k =
        (List.range ((e - t) / interval + 1)).flatMap
          (fun j => sensorTick catalog env s (k + j) (t + interval * j)) := by
  intro fuel
  induction fuel with
  | zero => intro t k hf ht; omega
  | succ fuel ih =>
    intro t k hf ht
    rw [sensorLoop, if_pos ⟨ht, hp⟩]
    by_cases h2 : t + interval ≤ e
    · have hdiv : (e - t) / interval + 1 = ((e - (t + interval)) / interval + 1) + 1 := by
        have h3 : e - t = (e - (t + interval)) + interval := by omega
        rw [h3, Nat.add_div_right _ hp]
      have hRHS : (List.range ((e - t) / interval + 1)).flatMap
            (fun j => sensorTick catalog env s (k + j) (t + interval * j)) =
          sensorTick catalog env s k t ++
            (List.range ((e - (t + interval)) / interval + 1)).flatMap
              (fun j => sensorTick catalog env s (k + 1 + j)
                (t + interval + interval * j)) := by
        rw [hdiv, List.range_succ_eq_map, List.flatMap_cons, List.flatMap_map]
        congr 1
        refine congrArg _ (funext fun j => ?_)
        have e1 : k + (j + 1) = k + 1 + j := by omega
        have e2 : t + interval * (j + 1) = t + interval + interval * j := by
          rw [Nat.mul_succ]; omega
        rw [e1, e2]
      rw [hRHS, ih (t + interval) (k + 1) (by omega) h2]
    · have h0 : (e - t) / interval = 0 := Nat.div_eq_of_lt (by omega)
      have hrec : sensorLoop catalog env s interval e fuel (t + interval) (k + 1) = [] := by
        cases fuel with
        | zero => rw [sensorLoop]
        | succ m => rw [sensorLoop, if_neg (by omega)]
      rw [hrec, h0]
      have hr1 : List.range (0 + 1) = [0] := rfl
      rw [hr1]
      simp

theorem equipReadings_length {cfg : EquipCfg} (h : cfg.id ≠ "HVAC_001")
    (env : SensorEnv) (s k i t : ℕ) :
    (equipReadings env s k i t cfg).length = if cfg.pressure.isSome then 3 else 2 := by
  rcases hp : cfg.pressure with - | pr <;> simp [equipReadings, h, hp]

theorem sensorTick_map_time (a b : EquipCfg) (env : SensorEnv) (s k t : ℕ)
    (ha : a.id ≠ "HVAC_001") (hb : b.id ≠ "HVAC_001") :
    (sensorTick [a, b] env s k t).map Reading.time =
      List.replicate ((if a.pressure.isSome then 3 else 2) +
        (if b.pressure.isSome then 3 else 2)) t := by
  rw [List.eq_replicate_iff]
  constructor
  · rw [List.length_map]
    have hsplit : sensorTick [a, b] env s k t =
        equipReadings env s k 0 t a ++ equipReadings env s k 1 t b := by
      have henum : [a, b].enum = [(0, a), (1, b)] := rfl
      rw [sensorTick, henum]
      simp
    rw [hsplit, List.length_append, equipReadings_length ha, equipReadings_length hb]
  · intro x hx
    obtain ⟨r, hr, rfl⟩ := List.mem_map.1 hx
    unfold sensorTick at hr
    obtain ⟨p, -, hr2⟩ := List.mem_flatMap.1 hr
    exact (mem_equipReadings hr2).1

/-- C4 (amended): for a 2-equipment catalog (neither entry the HVAC unit)
and a window of exactly 24 hours sampled at 60-minute intervals, the sensor
generator runs 25 ticks, not 24, because the while loop includes both window
endpoints; each tick contributes 2 or 3 readings per equipment depending on
pressure applicability, all carrying that tick's timestamp, so the total row
count is 25 times the per-tick row count and the timestamp sequence is 25
blocks of equal timestamps, the distinct tick timestamps strictly increasing
and equally spaced 60 minutes apart (rather than all row timestamps being
strictly increasing). -/
theorem C4_amended (a b : EquipCfg) (env : SensorEnv) (s : ℕ)
    (ha : a.id ≠ "HVAC_001") (hb : b.id ≠ "HVAC_001") :
    (generate_sensor_data [a, b] env s (s + 1440) 60).map Reading.time =
      (List.range 25).flatMap (fun j =>
        List.replicate ((if a.pressure.isSome then 3 else 2) +
          (if b.pressure.isSome then 3 else 2)) (s + 60 * j)) ∧
    (generate_sensor_data [a, b] env s (s + 1440) 60).length =
      25 * ((if a.pressure.isSome then 3 else 2) +
        (if b.pressure.isSome then 3 else 2)) := by
  have hmain : (generate_sensor_data [a, b] env s (s + 1440) 60).map Reading.time =
      (List.range 25).flatMap (fun j =>
        List.replicate ((if a.pressure.isSome then 3 else 2) +
          (if b.pressure.isSome then 3 else 2)) (s + 60 * j)) := by
    rw [generate_sensor_data,
      sensorLoop_eq_flat (by norm_num) (s + 1440 + 1 - s) s 0 (by omega) (by omega)]
    have hcnt : (s + 1440 - s) / 60 + 1 = 25 := by omega
    rw [hcnt, List.map_flatMap]
    refine congrArg _ (funext fun j => ?_)
    rw [Nat.zero_add]
    exact sensorTick_map_time a b env s j (s + 60 * j) ha hb
  refine ⟨hmain, ?_⟩
  have hlen : (generate_sensor_data [a, b] env s (s + 1440) 60).length =
      ((generate_sensor_data [a, b] env s (s + 1440) 60).map Reading.time).length := by
    rw [List.length_map]
  rw [hlen, hmain, List.length_flatMap]
  have hfun : (List.length ∘ fun j : ℕ =>
        List.replicate ((if a.pressure.isSome then 3 else 2) +
          (if b.pressure.isSome then 3 else 2)) (s + 60 * j)) =
      fun _ : ℕ => ((if a.pressure.isSome then 3 else 2) +
        (if b.pressure.isSome then 3 else 2)) := by
    funext j
    simp
  rw [hfun, List.map_const', List.sum_replicate, List.length_range, smul_eq_mul]

/-- C4 counterexample: for the concrete 2-equipment catalog MOTOR_001 (no
pressure) and PUMP_001 (pressure) over a 24-hour window at 60-minute
intervals, the output has 125 rows, which matches none of the counts the
claim allows (24 ticks times 2 equipment times 2 or 3 readings), and the
first two rows carry the same timestamp, so the timestamps over the whole
output are not strictly increasing. -/
theorem C4_counterexample :
    (generate_sensor_data [motorCfg, pumpCfg] envZero 0 1440 60).length = 125 ∧
    ((125:ℕ) ≠ 24 * 2 * 2 ∧ (125:ℕ) ≠ 24 * (2 + 3) ∧ (125:ℕ) ≠ 24 * 2 * 3) ∧
    ((generate_sensor_data [motorCfg, pumpCfg] envZero 0 1440 60).map
        Reading.time).take 2 = [0, 0] := by
  refine ⟨by decide, by decide, by decide⟩

/-- Witness for C4 (amended): the concrete catalog MOTOR_001 and PUMP_001 at
the all-zero oracle satisfies the amended shape with 25 ticks of 5 rows. -/
theorem C4_witness :
    (motorCfg.id ≠ "HVAC_001" ∧ pumpCfg.id ≠ "HVAC_001") ∧
    ((generate_sensor_data [motorCfg, pumpCfg] envZero 0 1440 60).map Reading.time =
        (List.range 25).flatMap (fun j =>
          List.replicate ((if motorCfg.pressure.isSome then 3 else 2) +
            (if pumpCfg.pressure.isSome then 3 else 2)) (0 + 60 * j)) ∧
      (generate_sensor_data [motorCfg, pumpCfg] envZero 0 1440 60).length =
        25 * ((if motorCfg.pressure.isSome then 3 else 2) +
          (if pumpCfg.pressure.isSome then 3 else 2))) :=
  ⟨⟨by decide, by decide⟩, C4_amended motorCfg pumpCfg envZero 0 (by decide) (by decide)⟩

theorem qcTest_batchId (env : QCEnv) (it li t : ℕ) (lineId : String) (batch : ℕ) :
    (qcTest env it li t lineId batch).batchId = batch := by
  simp only [qcTest]
  split_ifs <;> rfl

theorem qcLines_mem (env : QCEnv) (it t : ℕ) :
    ∀ ls li counter r, r ∈ (qcLines env it t ls li counter).1 →
      ∃ li2 c2 l, r = qcTest env it li2 t l c2 := by
  intro ls
  induction ls with
  | nil => intro li c r hr; simp [qcLines] at hr
  | cons l rest ih =>
    intro li c r hr
    rw [qcLines] at hr
    by_cases hgate : pyRandom (env.doTestU it li) < 7/10
    · rw [if_pos hgate] at hr
      rcases List.mem_cons.1 hr with h | h
      · exact ⟨li, c, l, h⟩
      · exact ih (li + 1) (c + 1) r h
    · rw [if_neg hgate] at hr
      exact ih (li + 1) c r hr

theorem qcLines_batch (env : QCEnv) (it t : ℕ) :
    ∀ ls li counter,
      counter ≤ (qcLines env it t ls li counter).2 ∧
      (∀ r ∈ (qcLines env it t ls li counter).1,
        counter ≤ r.batchId ∧ r.batchId < (qcLines env it t ls li counter).2) ∧
      List.Pairwise (fun x y : QCRecord => x.batchId < y.batchId)
        (qcLines env it t ls li counter).1 := by
  intro ls
  induction ls with
  | nil => intro li counter; simp [qcLines]
  | cons l rest ih =>
    intro li counter
    simp only [qcLines]
    by_cases hgate : pyRandom (env.doTestU it li) < 7/10
    · rw [if_pos hgate]
      obtain ⟨ih1, ih2, ih3⟩ := ih (li + 1) (counter + 1)
      refine ⟨by omega, ?_, ?_⟩
      · intro r hr
        rcases List.mem_cons.1 hr with h | h
        · rw [h, qcTest_batchId]
          have := ih1
          omega
        · have := ih2 r h
          omega
      · rw [List.pairwise_cons]
        refine ⟨?_, ih3⟩
        intro y hy
        rw [qcTest_batchId]
        have := ih2 y hy
        omega
    · rw [if_neg hgate]
      exact ih (li + 1) counter

theorem qcLoop_mem {env : QCEnv} {e : ℕ} :
    ∀ fuel cur counter it r, r ∈ qcLoop env e fuel cur counter it →
      ∃ it2 li2 c2 t2 l, r = qcTest env it2 li2 t2 l c2 := by
  intro fuel
  induction fuel with
  | zero => intro cur c it r hr; simp [qcLoop] at hr
  | succ fuel ih =>
    intro cur c it r hr
    simp only [qcLoop] at hr
    by_cases hc : cur ≤ e
    · rw [if_pos hc] at hr
      by_cases hn : e < cur + pyRandint 30 180 (env.gapU it)
      · rw [if_pos hn] at hr
        simp at hr
      · rw [if_neg hn] at hr
        rcases List.mem_append.1 hr with h | h
        · obtain ⟨li2, c2, l, hrr⟩ := qcLines_mem env it _ LINES 0 c r h
          exact ⟨it, li2, c2, _, l, hrr⟩
        · exact ih _ _ _ r h
    · rw [if_neg hc] at hr
      simp at hr

theorem qcLoop_batch {env : QCEnv} {e : ℕ} :
    ∀ fuel cur counter it,
      (∀ r ∈ qcLoop env e fuel cur counter it, counter ≤ r.batchId) ∧
      List.Pairwise (fun x y : QCRecord => x.batchId < y.batchId)
        (qcLoop env e fuel cur counter it) := by
  intro fuel
  induction fuel with
  | zero => intro cur c it; simp [qcLoop]
  | succ fuel ih =>
    intro cur c it
    simp only [qcLoop]
    by_cases hc : cur ≤ e
    · rw [if_pos hc]
      by_cases hn : e < cur + pyRandint 30 180 (env.gapU it)
      · rw [if_pos hn]
        simp
      · rw [if_neg hn]
        obtain ⟨hl1, hl2, hl3⟩ :=
          qcLines_batch env it (cur + pyRandint 30 180 (env.gapU it)) LINES 0 c
        obtain ⟨ihr1, ihr2⟩ := ih (cur + pyRandint 30 180 (env.gapU it))
          (qcLines env it (cur + pyRandint 30 180 (env.gapU it)) LINES 0 c).2 (it + 1)
        constructor
        · intro r hr
          rcases List.mem_append.1 hr with h | h
          · exact (hl2 r h).1
          · have := ihr1 r h
            omega
        · rw [List.pairwise_append]
          refine ⟨hl3, ihr2, ?_⟩
          intro x hx y hy
          have hx2 := (hl2 x hx).2
          have hy2 := ihr1 y hy
          omega
    · rw [if_neg hc]
      simp

/-- C9: across a single run the batch counter values of the quality-control
records, in emission order, are strictly increasing, so no batch identifier
is ever duplicated or reused. -/
theorem C9_batch_strictly_increasing (env : QCEnv) (s e : ℕ) :
    List.Pairwise (· < ·)
      ((generate_quality_control_data env s e).map QCRecord.batchId) := by
  rw [List.pairwise_map]
  exact (qcLoop_batch (e + 1 - s) s 1000 0).2

theorem qcTest_tolerance (env : QCEnv) (it li t : ℕ) (lineId : String) (batch : ℕ) :
    ((qcTest env it li t lineId batch).testType = "dimensional" →
      (qcTest env it li t lineId batch).toleranceMin = some 10 ∧
      (qcTest env it li t lineId batch).toleranceMax = some (21/2) ∧
      ∃ m, (qcTest env it li t lineId batch).measurement = some m ∧
        ((qcTest env it li t lineId batch).testResult = "pass" → 10 < m ∧ m < 21/2) ∧
        ((qcTest env it li t lineId batch).testResult = "fail" → m < 10 ∨ 21/2 ≤ m)) ∧
    ((qcTest env it li t lineId batch).testType = "electrical" →
      (qcTest env it li t lineId batch).toleranceMin = some 45 ∧
      (qcTest env it li t lineId batch).toleranceMax = some 55 ∧
      ∃ m, (qcTest env it li t lineId batch).measurement = some m ∧
        ((qcTest env it li t lineId batch).testResult = "pass" → 45 < m ∧ m < 55) ∧
        ((qcTest env it li t lineId batch).testResult = "fail" → m < 45 ∨ 55 ≤ m)) := by
  simp only [qcTest]
  by_cases h1 : pyChoice TEST_TYPES (env.testTypeU it li) "dimensional" = "dimensional"
  · rw [if_pos h1]
    constructor
    · intro _
      refine ⟨rfl, rfl, ?_⟩
      by_cases hres : pyRandom (env.passU it li) < 19/20
      · rw [if_pos hres, if_pos rfl]
        have hlow := pyUniform_le (by norm_num : (10:ℚ) + 1/20 ≤ 21/2 - 1/20) (env.measU it li)
        have hhigh := pyUniform_lt (by norm_num : (10:ℚ) + 1/20 < 21/2 - 1/20) (env.measU it li)
        exact ⟨_, rfl, fun _ => ⟨by linarith, by linarith⟩,
          fun hcon => by simp at hcon⟩
      · rw [if_neg hres, if_neg (by decide : ¬ ("fail" : String) = "pass")]
        by_cases hside : pyRandom (env.sideU it li) < 1/2
        · rw [if_pos hside]
          have hhigh := pyUniform_lt (by norm_num : (10:ℚ) - 1/5 < 10) (env.measU it li)
          exact ⟨_, rfl, fun hcon => by simp at hcon, fun _ => Or.inl hhigh⟩
        · rw [if_neg hside]
          have hlow := pyUniform_le (by norm_num : (21:ℚ)/2 ≤ 21/2 + 1/5) (env.measU it li)
          exact ⟨_, rfl, fun hcon => by simp at hcon, fun _ => Or.inr hlow⟩
    · intro hcon
      simp [h1] at hcon
  · rw [if_neg h1]
    by_cases h2 : pyChoice TEST_TYPES (env.testTypeU it li) "dimensional" = "electrical"
    · rw [if_pos h2]
      constructor
      · intro hcon
        simp [h2] at hcon
      · intro _
        refine ⟨rfl, rfl, ?_⟩
        by_cases hres : pyRandom (env.passU it li) < 19/20
        · rw [if_pos hres, if_pos rfl]
          have hlow := pyUniform_le (by norm_num : (45:ℚ) + 1 ≤ 55 - 1) (env.measU it li)
          have hhigh := pyUniform_lt (by norm_num : (45:ℚ) + 1 < 55 - 1) (env.measU it li)
          exact ⟨_, rfl, fun _ => ⟨by linarith, by linarith⟩,
            fun hcon => by simp at hcon⟩
        · rw [if_neg hres, if_neg (by decide : ¬ ("fail" : String) = "pass")]
          by_cases hside : pyRandom (env.sideU it li) < 1/2
          · rw [if_pos hside]
            have hhigh := pyUniform_lt (by norm_num : (45:ℚ) - 5 < 45) (env.measU it li)
            exact ⟨_, rfl, fun hcon => by simp at hcon, fun _ => Or.inl hhigh⟩
          · rw [if_neg hside]
            have hlow := pyUniform_le (by norm_num : (55:ℚ) ≤ 55 + 5) (env.measU it li)
            exact ⟨_, rfl, fun hcon => by simp at hcon, fun _ => Or.inr hlow⟩
    · rw [if_neg h2]
      exact ⟨fun hcon => absurd hcon h1, fun hcon => absurd hcon h2⟩

/-- C3 (amended): for every quality-control record of test type dimensional
or electrical, a pass measurement lies strictly inside the tolerance band;
a fail measurement lies strictly below tolerance_min or at-or-above
tolerance_max: the high-side fail sample is drawn from the half-open band
[tolerance_max, tolerance_max + delta) and can equal tolerance_max exactly
(random.uniform attains its lower endpoint), so strictly above cannot be
guaranteed on that side. -/
theorem C3_amended (env : QCEnv) (s e : ℕ) (r : QCRecord)
    (hr : r ∈ generate_quality_control_data env s e) :
    (r.testType = "dimensional" →
      r.toleranceMin = some 10 ∧ r.toleranceMax = some (21/2) ∧
      ∃ m, r.measurement = some m ∧
        (r.testResult = "pass" → 10 < m ∧ m < 21/2) ∧
        (r.testResult = "fail" → m < 10 ∨ 21/2 ≤ m)) ∧
    (r.testType = "electrical" →
      r.toleranceMin = some 45 ∧ r.toleranceMax = some 55 ∧
      ∃ m, r.measurement = some m ∧
        (r.testResult = "pass" → 45 < m ∧ m < 55) ∧
        (r.testResult = "fail" → m < 45 ∨ 55 ≤ m)) := by
  obtain ⟨it2, li2, c2, t2, l, hrr⟩ := qcLoop_mem (e + 1 - s) s 1000 0 r hr
  rw [hrr]
  exact qcTest_tolerance env it2 li2 t2 l c2

/-- C3 counterexample: at the oracle qcEnvCex the run emits a dimensional
record with result fail whose measurement equals the tolerance maximum
21/2 exactly, so the measurement does not lie strictly outside the band as
the claim requires. -/
theorem C3_counterexample :
    qcCexRecord ∈ generate_quality_control_data qcEnvCex 0 100 ∧
      qcCexRecord.testType = "dimensional" ∧
      qcCexRecord.testResult = "fail" ∧
      qcCexRecord.measurement = some (21/2) ∧
      qcCexRecord.toleranceMin = some 10 ∧
      qcCexRecord.toleranceMax = some (21/2) ∧
      ¬ ((21/2 : ℚ) < 10 ∨ (21/2 : ℚ) > 21/2) := by
  refine ⟨by decide, by decide, by decide, by decide, by decide, by decide, by decide⟩

/-- Witness for C3 (amended): the concrete passing dimensional record of
qcEnvPass satisfies the amended property, with measurement 201/20 strictly
inside the band. -/
theorem C3_witness :
    (qcPassRecord ∈ generate_quality_control_data qcEnvPass 0 40) ∧
    ((qcPassRecord.testType = "dimensional" →
      qcPassRecord.toleranceMin = some 10 ∧ qcPassRecord.toleranceMax = some (21/2) ∧
      ∃ m, qcPassRecord.measurement = some m ∧
        (qcPassRecord.testResult = "pass" → 10 < m ∧ m < 21/2) ∧
        (qcPassRecord.testResult = "fail" → m < 10 ∨ 21/2 ≤ m)) ∧
    (qcPassRecord.testType = "electrical" →
      qcPassRecord.toleranceMin = some 45 ∧ qcPassRecord.toleranceMax = some 55 ∧
      ∃ m, qcPassRecord.measurement = some m ∧
        (qcPassRecord.testResult = "pass" → 45 < m ∧ m < 55) ∧
        (qcPassRecord.testResult = "fail" → m < 45 ∨ 55 ≤ m))) :=
  ⟨by decide, C3_amended qcEnvPass 0 40 qcPassRecord (by decide)⟩

theorem faultEvents_mem {env : MaintEnv} {ei it : ℕ} {eqId : String}
    {s e daysPassed : ℕ} {ev : MaintEvent}
    (hev : ev ∈ faultEvents env ei it eqId s e daysPassed) :
    ev.maintenanceType = "corrective" ∧ ev.time ≤ e ∧
      ∃ j < 30, ∃ hh, 8 ≤ hh ∧ hh ≤ 18 ∧
        ev.time = s + (daysPassed + j) * 1440 + hh * 60 := by
  simp only [faultEvents] at hev
  obtain ⟨j, hj, h2⟩ := List.mem_flatMap.1 hev
  rw [List.mem_range] at hj
  by_cases hg : pyRandom (env.faultGateU ei it (daysPassed + j)) < 1/50
  · rw [if_pos hg] at h2
    by_cases hf : s + (daysPassed + j) * 1440 +
        pyRandint 8 18 (env.faultHourU ei it (daysPassed + j)) * 60 ≤ e
    · rw [if_pos hf] at h2
      rw [List.mem_singleton] at h2
      subst h2
      exact ⟨rfl, hf, j, hj, pyRandint 8 18 (env.faultHourU ei it (daysPassed + j)),
        le_pyRandint 8 18 _, pyRandint_le (by norm_num) _, rfl⟩
    · rw [if_neg hf] at h2
      simp at h2
  · rw [if_neg hg] at h2
    simp at h2

theorem filter_prev_cons (ev : MaintEvent) (l : List MaintEvent)
    (h : ev.maintenanceType = "preventive") :
    (ev :: l).filter (fun x => x.maintenanceType = "preventive") =
      ev :: l.filter (fun x => x.maintenanceType = "preventive") := by
  simp [List.filter_cons, h]

theorem maintLoop_prev_chain (env : MaintEnv) (ei : ℕ) (eqId : String) (s e : ℕ) :
    ∀ fuel cur it,
      List.Chain' (fun x y => x + 28 * 1440 ≤ y ∧ y ≤ x + 35 * 1440)
        (((maintLoop env ei eqId s e fuel cur it).filter
            (fun ev => ev.maintenanceType = "preventive")).map MaintEvent.time) ∧
      (∀ x, (((maintLoop env ei eqId s e fuel cur it).filter
            (fun ev => ev.maintenanceType = "preventive")).map
              MaintEvent.time).head? = some x →
        cur + 28 * 1440 ≤ x ∧ x ≤ cur + 35 * 1440) := by
  intro fuel
  induction fuel with
  | zero => intro cur it; simp [maintLoop]
  | succ fuel ih =>
    intro cur it
    simp only [maintLoop]
    by_cases hc : cur ≤ e
    · rw [if_pos hc]
      have hd1 : 28 ≤ pyRandint 28 35 (env.gapU ei it) := le_pyRandint _ _ _
      have hd2 : pyRandint 28 35 (env.gapU ei it) ≤ 35 := pyRandint_le (by norm_num) _
      have hfe : (faultEvents env ei it eqId s e ((cur - s) / 1440)).filter
          (fun ev => ev.maintenanceType = "preventive") = [] := by
        rw [List.filter_eq_nil_iff]
        intro ev hev
        have h := (faultEvents_mem hev).1
        simp [h]
      obtain ⟨ih1, ih2⟩ := ih (cur + pyRandint 28 35 (env.gapU ei it) * 1440) (it + 1)
      by_cases hm : cur + pyRandint 28 35 (env.gapU ei it) * 1440 ≤ e
      · rw [if_pos hm, List.filter_append, List.filter_append, hfe,
          filter_prev_cons _ _ rfl, List.filter_nil]
        simp only [List.nil_append, List.cons_append, List.map_append, List.map_cons,
          List.map_nil, List.singleton_append]
        rw [List.chain'_cons']
        refine ⟨⟨fun y hy => ih2 y hy, ih1⟩, fun x hx => ?_⟩
        rw [List.head?_cons, Option.some_inj] at hx
        omega
      · rw [if_neg hm]
        have hrec : maintLoop env ei eqId s e fuel
            (cur + pyRandint 28 35 (env.gapU ei it) * 1440) (it + 1) = [] := by
          cases fuel with
          | zero => rw [maintLoop]
          | succ m => rw [maintLoop, if_neg (by omega)]
        rw [hrec]
        simp [hfe]
    · rw [if_neg hc]
      simp

/-- C6: for every run and every piece of equipment, the intervals between
the timestamps of consecutive preventive maintenance events lie between 28
and 35 days (40320 and 50400 minutes): each preventive event is scheduled
randint(28, 35) days after the cursor, and the cursor moves exactly to the
previous preventive time. -/
theorem C6_preventive_interval (env : MaintEnv) (ei : ℕ) (eqId : String) (s e : ℕ) :
    List.Chain' (fun x y => x + 28 * 1440 ≤ y ∧ y ≤ x + 35 * 1440)
      (((maintForEquipment env ei eqId s e).filter
          (fun ev => ev.maintenanceType = "preventive")).map MaintEvent.time) :=
  (maintLoop_prev_chain env ei eqId s e (e + 1 - s) s 0).1

theorem maintLoop_corr (env : MaintEnv) (ei : ℕ) (eqId : String) (s e : ℕ) :
    ∀ fuel cur it r, r ∈ maintLoop env ei eqId s e fuel cur it →
      r.maintenanceType = "corrective" →
      r.time ≤ e ∧ ∃ day ∈ maintDaysLoop env ei s e fuel cur it, ∃ hh,
        8 ≤ hh ∧ hh ≤ 18 ∧ r.time = s + day * 1440 + hh * 60 := by
  intro fuel
  induction fuel with
  | zero =>
    intro cur it r hr hcorr
    simp [maintLoop] at hr
  | succ fuel ih =>
    intro cur it r hr hcorr
    simp only [maintLoop] at hr
    simp only [maintDaysLoop]
    by_cases hc : cur ≤ e
    · rw [if_pos hc] at hr
      rw [if_pos hc]
      rcases List.mem_append.1 hr with h12 | h3
      rcases List.mem_append.1 h12 with h1 | h2
      · exfalso
        by_cases hm : cur + pyRandint 28 35 (env.gapU ei it) * 1440 ≤ e
        · rw [if_pos hm, List.mem_singleton] at h1
          rw [h1] at hcorr
          simp at hcorr
        · rw [if_neg hm] at h1
          simp at h1
      · obtain ⟨-, htime, j, hj, hh, hh1, hh2, hh3⟩ := faultEvents_mem h2
        refine ⟨htime, (cur - s) / 1440 + j, ?_, hh, hh1, hh2, hh3⟩
        refine List.mem_append.2 (Or.inl ?_)
        exact List.mem_map.2 ⟨j, List.mem_range.2 hj, rfl⟩
      · obtain ⟨htime, day, hday, hh, hh1, hh2, hh3⟩ := ih _ _ r h3 hcorr
        exact ⟨htime, day, List.mem_append.2 (Or.inr hday), hh, hh1, hh2, hh3⟩
    · rw [if_neg hc] at hr
      simp at hr

/-- C7 (amended): the per-day Bernoulli fault trials of each cursor
iteration cover a fixed 30-day window starting at the day index of the
cursor, regardless of the 28-to-35-day gap drawn for the next preventive
event; a run day can therefore be tried twice (when a gap is shorter than
30 days) or skipped (longer than 30 days), instead of exactly once.  What
does hold of every corrective event is that its timestamp falls inside the
window end, on one of the trial days of the run, at an hour between 8 and
18 of that day, but not necessarily before the next preventive event. -/
theorem C7_amended (env : MaintEnv) (ei : ℕ) (eqId : String) (s e : ℕ)
    (r : MaintEvent) (hr : r ∈ maintForEquipment env ei eqId s e)
    (hcorr : r.maintenanceType = "corrective") :
    r.time ≤ e ∧ ∃ day ∈ maintTrialDays env ei s e, ∃ hh,
      8 ≤ hh ∧ hh ≤ 18 ∧ r.time = s + day * 1440 + hh * 60 :=
  maintLoop_corr env ei eqId s e (e + 1 - s) s 0 r hr hcorr

/-- C7 counterexample: at the oracle maintEnvCex over a 60-day window the
28-day preventive gaps make consecutive 30-day trial windows overlap: run
day 28 receives two Bernoulli trials (its index occurs twice in the trial
list) and, with both trials firing, two corrective events are emitted for
the same equipment on that same day, so each day is not subjected to
exactly one trial. -/
theorem C7_counterexample :
    ((maintForEquipment maintEnvCex 0 "MOTOR_001" 0 86400).filter
        (fun ev => ev.maintenanceType = "corrective" ∧ ev.time / 1440 = 28)).length = 2 ∧
      (maintTrialDays maintEnvCex 0 0 86400).count 28 = 2 ∧ (2:ℕ) ≠ 1 := by
  refine ⟨by decide, by decide, by decide⟩

/-- Witness for C7 (amended): the concrete corrective event of maintEnvCex
lies inside the window, on trial day 28, at hour 8. -/
theorem C7_witness :
    (corrCexEvent ∈ maintForEquipment maintEnvCex 0 "MOTOR_001" 0 86400 ∧
      corrCexEvent.maintenanceType = "corrective") ∧
    (corrCexEvent.time ≤ 86400 ∧ ∃ day ∈ maintTrialDays maintEnvCex 0 0 86400, ∃ hh,
      8 ≤ hh ∧ hh ≤ 18 ∧ corrCexEvent.time = 0 + day * 1440 + hh * 60) :=
  ⟨⟨by decide, by decide⟩,
    C7_amended maintEnvCex 0 "MOTOR_001" 0 86400 corrCexEvent (by decide) (by decide)⟩

theorem prodLoop_mem {catalog : List EquipCfg} {env : ProdEnv} {interval e : ℕ} :
    ∀ fuel t k r, r ∈ prodLoop catalog env interval e fuel t k →
      ∃ t2 k2, r ∈ prodTick catalog env k2 t2 := by
  intro fuel
  induction fuel with
  | zero =>
    intro t k r hr
    simp [prodLoop] at hr
  | succ fuel ih =>
    intro t k r hr
    rw [prodLoop] at hr
    by_cases hc : t ≤ e ∧ 0 < interval
    · rw [if_pos hc] at hr
      rcases List.mem_append.1 hr with h1 | h2
      · exact ⟨t, k, h1⟩
      · exact ih (t + interval) (k + 1) r h2
    · rw [if_neg hc] at hr
      simp at hr

theorem prodTick_mem {catalog : List EquipCfg} {env : ProdEnv} {k t : ℕ}
    {r : ProdRecord} (hr : r ∈ prodTick catalog env k t) :
    ∃ li ei lineId eqId baseEff baseThru,
      r = prodRecord env k li ei t lineId eqId baseEff baseThru := by
  simp only [prodTick] at hr
  obtain ⟨lp, -, h2⟩ := List.mem_flatMap.1 hr
  obtain ⟨ep, -, h3⟩ := List.mem_flatMap.1 h2
  rw [List.mem_singleton] at h3
  exact ⟨lp.1, ep.1, lp.2, ep.2.id, _, _, h3⟩

theorem prodRecord_bounds (env : ProdEnv) (k li ei t : ℕ) (lineId eqId : String)
    (baseEff baseThru : ℚ) :
    0 ≤ (prodRecord env k li ei t lineId eqId baseEff baseThru).efficiencyScore ∧
    (prodRecord env k li ei t lineId eqId baseEff baseThru).efficiencyScore ≤ 100 ∧
    0 ≤ (prodRecord env k li ei t lineId eqId baseEff baseThru).downtimeDuration ∧
    0 ≤ (prodRecord env k li ei t lineId eqId baseEff baseThru).defectRate := by
  simp only [prodRecord]
  set eff : ℚ :=
    max 0 (min 100 (baseEff * pyUniform (9/10) (11/10) (env.effJitterU k li ei))) with heff
  have he0 : 0 ≤ eff := le_max_left _ _
  have he100 : eff ≤ 100 := max_le (by norm_num) (min_le_left _ _)
  have hprob : 0 ≤ (100 - eff) / 100 * (3/10) := by nlinarith
  refine ⟨roundTo_nonneg 1 he0, ?_, ?_, roundTo_nonneg 2 (le_max_left _ _)⟩
  · have h1 : eff * 10 ^ 1 ≤ ((1000 : ℤ) : ℚ) := by push_cast; nlinarith
    have h2 := roundTo_le h1
    norm_num at h2
    exact h2
  · apply roundTo_nonneg
    split_ifs
    · exact mul_nonneg (by nlinarith) (abs_nonneg _)
    · exact le_rfl

theorem sampleProdRecord_bounds (env : ProdEnv) (k li ei t : ℕ)
    (lineId eqId : String) (baseEff baseThru : ℚ) :
    0 ≤ (sampleProdRecord env k li ei t lineId eqId baseEff baseThru).efficiencyScore ∧
    (sampleProdRecord env k li ei t lineId eqId baseEff baseThru).efficiencyScore ≤ 100 ∧
    0 ≤ (sampleProdRecord env k li ei t lineId eqId baseEff baseThru).downtimeDuration ∧
    0 ≤ (sampleProdRecord env k li ei t lineId eqId baseEff baseThru).defectRate := by
  simp only [sampleProdRecord]
  set eff : ℚ :=
    max 0 (min 100 (baseEff * pyUniform (9/10) (11/10) (env.effJitterU k li ei))) with heff
  have he0 : 0 ≤ eff := le_max_left _ _
  have he100 : eff ≤ 100 := max_le (by norm_num) (min_le_left _ _)
  have hu : (0:ℚ) ≤ pyUniform 0 15 (env.dtExpU k li ei) :=
    pyUniform_le (by norm_num) _
  refine ⟨roundTo_nonneg 1 he0, ?_, ?_, roundTo_nonneg 2 (le_max_left _ _)⟩
  · have h1 : eff * 10 ^ 1 ≤ ((1000 : ℤ) : ℚ) := by push_cast; nlinarith
    have h2 := roundTo_le h1
    norm_num at h2
    exact h2
  · apply roundTo_nonneg
    split_ifs
    · exact mul_nonneg hu (by nlinarith)
    · exact le_rfl

/-- C8: every generated production record has its efficiency score clamped
into [0, 100] (max 0 (min 100 ...) before rounding), a non-negative
downtime duration (an exponential draw with non-negative scale, or zero),
and a non-negative defect rate (floored at 0); the same holds for the
records built by the CSV-variant body, whose downtime is a non-negative
uniform draw scaled by the non-negative downtime probability. -/
theorem C8_production_invariants :
    (∀ catalog env s e interval r,
      r ∈ generate_production_metrics catalog env s e interval →
      0 ≤ r.efficiencyScore ∧ r.efficiencyScore ≤ 100 ∧
        0 ≤ r.downtimeDuration ∧ 0 ≤ r.defectRate) ∧
    (∀ env k li ei t lineId eqId baseEff baseThru,
      0 ≤ (sampleProdRecord env k li ei t lineId eqId baseEff baseThru).efficiencyScore ∧
      (sampleProdRecord env k li ei t lineId eqId baseEff baseThru).efficiencyScore ≤ 100 ∧
      0 ≤ (sampleProdRecord env k li ei t lineId eqId baseEff baseThru).downtimeDuration ∧
      0 ≤ (sampleProdRecord env k li ei t lineId eqId baseEff baseThru).defectRate) := by
  constructor
  · intro catalog env s e interval r hr
    obtain ⟨t2, k2, hr2⟩ := prodLoop_mem _ _ _ _ hr
    obtain ⟨li, ei, lineId, eqId, baseEff, baseThru, hrr⟩ := prodTick_mem hr2
    rw [hrr]
    exact prodRecord_bounds env k2 li ei t2 lineId eqId baseEff baseThru
  · intro env k li ei t lineId eqId baseEff baseThru
    exact sampleProdRecord_bounds env k li ei t lineId eqId baseEff baseThru

/-- Witness for C8: a concrete production record of the main generator at
the all-zero oracle, and a concrete record of the CSV-variant body, both
satisfying the invariants. -/
theorem C8_witness :
    (ProdRecord.mk 0 "Line 1" "MOTOR_001" (583/10) 32 54 (43/5) 0 (18/5) ∈
        generate_production_metrics [motorCfg] prodEnvZero 0 0 1 ∧
      (0 ≤ (ProdRecord.mk 0 "Line 1" "MOTOR_001" (583/10) 32 54 (43/5) 0
            (18/5)).efficiencyScore ∧
        (ProdRecord.mk 0 "Line 1" "MOTOR_001" (583/10) 32 54 (43/5) 0
            (18/5)).efficiencyScore ≤ 100 ∧
        0 ≤ (ProdRecord.mk 0 "Line 1" "MOTOR_001" (583/10) 32 54 (43/5) 0
            (18/5)).downtimeDuration ∧
        0 ≤ (ProdRecord.mk 0 "Line 1" "MOTOR_001" (583/10) 32 54 (43/5) 0
            (18/5)).defectRate)) ∧
    (0 ≤ (sampleProdRecord prodEnvZero 0 0 0 0 "Line 1" "MOTOR_001" 60 40).efficiencyScore ∧
      (sampleProdRecord prodEnvZero 0 0 0 0 "Line 1" "MOTOR_001" 60 40).efficiencyScore ≤ 100 ∧
      0 ≤ (sampleProdRecord prodEnvZero 0 0 0 0 "Line 1" "MOTOR_001" 60 40).downtimeDuration ∧
      0 ≤ (sampleProdRecord prodEnvZero 0 0 0 0 "Line 1" "MOTOR_001" 60 40).defectRate) :=
  ⟨⟨by decide,
    C8_production_invariants.1 [motorCfg] prodEnvZero 0 0 1 _ (by decide)⟩,
    C8_production_invariants.2 prodEnvZero 0 0 0 0 "Line 1" "MOTOR_001" 60 40⟩
